import Mathlib

/-
Verification of the client-side request orchestration and status-tracking
layer (pinia api toolkit plugin and the sdf axios interceptors).

The definitions below are a shallow embedding of the TypeScript source:
  - `getTrackingKey` / `getKey` embed the two tracking-key computations of
    the plugin (dispatch side and read side);
  - `ApiRequestDescription`, `RawApiRequestStatus` and `triggerApiRequest`
    embed the `ApiRequestDebouncer` state machine, with JS `Date` values
    modelled as `Nat` timestamps, the deferred completion promise modelled
    by a numeric identity, hook invocations recorded as an ordered event
    list, and the outcome of the one physical axios call supplied as an
    explicit `CallOutcome` parameter;
  - `fireActionResult` and `ApiRequestState.result` embed the
    `ApiRequest` result plumbing;
  - `handleProxyTimeouts`, `handle500`, `handleOutageModes` and
    `handleForcedChangesetRedirection` embed the axios interceptors of
    `apis.ts`, with their side effects recorded as `ApiEffect` values;
  - the conflict registry operations are modelled from the spec, since only
    their type declarations appear in the source under review.
-/

namespace Si

/-- JS scalar values accepted as request-status key discriminators
(`RawRequestStatusKeyArg = string | number | undefined | null`). -/
inductive KeyArg
  | strA (s : String)
  | numA (n : Int)
  | undefA
  | nullA
deriving DecidableEq, Repr

/-- JS truthiness of a `KeyArg`: nonempty strings and nonzero numbers are
truthy; `undefined` and `null` are falsy. -/
def jsTruthyArg : KeyArg → Bool
  | KeyArg.strA s => s ≠ ""
  | KeyArg.numA n => n ≠ 0
  | KeyArg.undefA => false
  | KeyArg.nullA => false

/-- How `Array.prototype.join` renders one element: `null` and `undefined`
become the empty string, numbers are stringified, strings are kept. -/
def joinToString : KeyArg → String
  | KeyArg.strA s => s
  | KeyArg.numA n => toString n
  | KeyArg.undefA => ""
  | KeyArg.nullA => ""

/-- Request parameters (`params`), modelled as an association list of
string-valued fields; `_.isEqual` deep equality becomes structural
equality. -/
abbrev Params := List (String × String)

/-- JS object property assignment `ps[k] = v`: overwrite the field if
present, append it otherwise. -/
def setField (ps : Params) (k v : String) : Params :=
  if ps.any (fun p => p.1 = k) then ps.map (fun p => if p.1 = k then (k, v) else p)
  else ps ++ [(k, v)]

/-- The parsed JSON body of a failed response, keeping the fields this layer
reads: `data.error.message`, `data.message` and `data.error.type`. -/
structure ErrData where
  errorMessage : Option String := none
  dataMessage : Option String := none
  errorType : Option String := none
deriving DecidableEq, Repr

/-- The slice of an `AxiosResponse` the debouncer stores and reads: the
parsed body and the HTTP status (absent on a body synthesized by
`onFail`). -/
structure AxiosResp where
  data : ErrData
  status : Option Nat := none
deriving DecidableEq, Repr

/-- A JS `Error` / `AxiosError`: a message, an optional attached response,
and whether it is an `AxiosError` instance. -/
structure JsError where
  message : String
  response : Option AxiosResp := none
  isAxiosError : Bool := true
deriving DecidableEq, Repr

/-- Response payload delivered on success (`request.data`), kept opaque as a
string. -/
abbrev RespData := String

/-- A segment of a `URLPattern`: either a literal string or a single-binding
record mapping a placeholder name to its (possibly absent) value. -/
inductive UrlSegment
  | lit (s : String)
  | keyed (name : String) (value : Option String)
deriving DecidableEq, Repr

/-- The `url` field of a request description: a plain string, a
`URLPattern`, or absent. -/
inductive UrlSpec
  | strU (s : String)
  | patternU (ps : List UrlSegment)
  | missing
deriving DecidableEq, Repr

/-- HTTP methods supported by `ApiRequestDescription.method`. -/
inductive Method
  | get | post | put | patch | delete
deriving DecidableEq, Repr

/-- Embeds `describePattern`: walk the pattern left to right collecting the concrete
url parts and the low-cardinality name parts; a falsy placeholder value
throws `Bad URLPattern`. -/
def describePatternParts : List UrlSegment → Except String (List String × List String)
  | [] => Except.ok ([], [])
  | UrlSegment.lit s :: rest =>
      match describePatternParts rest with
      | Except.ok (u, n) => Except.ok (s :: u, s :: n)
      | Except.error m => Except.error m
  | UrlSegment.keyed k v :: rest =>
      match v with
      | none => Except.error "Bad URLPattern"
      | some s =>
          if s = "" then Except.error "Bad URLPattern"
          else
            match describePatternParts rest with
            | Except.ok (u, n) => Except.ok (s :: u, (":" ++ k) :: n)
            | Except.error m => Except.error m

/-- Joined form of `describePattern`: returns the `/`-joined concrete url together with the
`/`-joined span-name template. -/
def describePattern (ps : List UrlSegment) : Except String (String × String) :=
  match describePatternParts ps with
  | Except.ok (u, n) => Except.ok (String.intercalate "/" u, String.intercalate "/" n)
  | Except.error m => Except.error m

/-- URL resolution in `triggerApiRequest`: an array is run through
`describePattern`, a string is used as both url and name, anything else
throws `URL is required`. -/
def resolveUrl : UrlSpec → Except String (String × String)
  | UrlSpec.strU s => Except.ok (s, s)
  | UrlSpec.patternU ps => describePattern ps
  | UrlSpec.missing => Except.error "URL is required"

/-- Embeds `ApiRequestDescription`: the caller-supplied request specification. Hook
fields are modelled by what the debouncer observes of them: presence flags
for `onSuccess` / `onNewChangeSet`, presence plus the returned replacement
body for `onFail` (`none` = no handler, `some none` = handler returning
nothing truthy, `some (some d)` = handler returning body `d`), and for
`optimistic` whether the mutation function is present and whether it
returns a rollback function. -/
structure ApiRequestDescription where
  method : Option Method := none
  url : UrlSpec := UrlSpec.missing
  params : Option Params := none
  formData : Bool := false
  keyRequestStatusBy : Option (Sum KeyArg (List KeyArg)) := none
  hasOnSuccess : Bool := false
  hasOnNewChangeSet : Bool := false
  onFail : Option (Option ErrData) := none
  optimistic : Option Bool := none
  delayMs : Option Nat := none
deriving DecidableEq, Repr

/-- Embeds `getTrackingKey(actionName, requestSpec)`: start from the action name,
append the `keyRequestStatusBy` discriminators (spread if an array, the
single value if truthy, nothing if the field is falsy) and join with the
`%` separator using JS `Array.join` stringification. -/
def getTrackingKey (actionName : String) (requestSpec : ApiRequestDescription) : String :=
  let trackingKeyArray : List KeyArg :=
    match requestSpec.keyRequestStatusBy with
    | none => []
    | some (Sum.inl a) => if jsTruthyArg a then [a] else []
    | some (Sum.inr as) => as
  String.intercalate "%" ((KeyArg.strA actionName :: trackingKeyArray).map joinToString)

/-- Embeds `getKey(requestKey, ...keyedByArgs)` (read side): `_.compact` the
unreffed args — dropping every falsy value — then join with the `%`
separator. -/
def getKey (requestKey : String) (keyedByArgs : List KeyArg) : String :=
  String.intercalate "%" (requestKey :: (keyedByArgs.filter jsTruthyArg).map joinToString)

/-- Embeds `RawApiRequestStatus`: the mutable per-key record held by an
`ApiRequestDebouncer`. Timestamps are `Nat`, the deferred completion
promise is identified by a `Nat` tag, and the stored error keeps the
`AxiosResp` shape (a synthesized transport-error body has no status). -/
structure RawApiRequestStatus where
  requestedAt : Nat
  receivedAt : Option Nat := none
  completedAt : Option Nat := none
  lastSuccessAt : Option Nat := none
  payload : Option Params := none
  error : Option AxiosResp := none
  completed : Option Nat := none
deriving DecidableEq, Repr

/-- Per-dispatch ambient data: the two `new Date()` readings (record
creation and settlement), the generated `ulid()`, and the identity of the
freshly created deferred promise. -/
structure TriggerCtx where
  now1 : Nat
  now2 : Nat
  ulid : String
  signal : Nat
deriving DecidableEq, Repr

/-- What the one physical axios call does: fulfil with data, status and
response headers (of which only `force_change_set_id` is read), or reject
with a JS error (an HTTP error response when `response` is present, a
transport/network error when it is absent). -/
inductive CallOutcome
  | success (data : RespData) (status : Nat) (forceChangeSetId : Option String)
  | failure (err : JsError)
deriving DecidableEq, Repr

/-- Observable invocations made by one `triggerApiRequest` run, in program
order. -/
inductive Event
  | optimisticRun (requestUlid : String)
  | physicalCall (method : Option Method) (url : String)
  | onNewChangeSetHook (newChangeSetId : String) (response : RespData)
  | onSuccessHook (response : RespData)
  | onFailHook
  | rollback
deriving DecidableEq, Repr

/-- Value a deferred completion promise is resolved with: `{data}` or
`{error}`. -/
inductive SignalValue
  | dataV (d : RespData)
  | errorV (e : JsError)
deriving DecidableEq, Repr

/-- How one `triggerApiRequest` run terminates: deduplicated onto an
existing promise, resolved with a value, a synchronous throw before the
call (missing url / bad pattern), or the `TypeError` crash reading
`err.response.status` on a transport error. -/
inductive TriggerOutcome
  | deduped (signal : Option Nat)
  | resolvedData (data : RespData)
  | resolvedError (err : JsError)
  | threw (msg : String)
  | typeError
deriving DecidableEq, Repr

/-- Result of one `triggerApiRequest` run: the record of the debouncer
afterwards, the ordered events, the value the deferred promise was
resolved with (if it was), and the termination. -/
structure TriggerResult where
  newState : Option RawApiRequestStatus
  events : List Event
  resolvedWith : Option SignalValue
  outcome : TriggerOutcome
deriving DecidableEq, Repr

/-- The deduplication test at the top of `triggerApiRequest`: a record
exists, it has no `receivedAt`, and its stored payload is deep-equal to
the incoming `params`. -/
def dedupHit (st : Option RawApiRequestStatus) (spec : ApiRequestDescription) : Bool :=
  match st with
  | some r => decide (r.receivedAt = none ∧ r.payload = spec.params)
  | none => false

/-- The fresh record written by `triggerApiRequest`: `requestedAt = now`,
payload = the params after the `requestUlid` field was added, a fresh
deferred promise, and `lastSuccessAt` carried forward from any prior
record. -/
def newRecord (st : Option RawApiRequestStatus) (spec : ApiRequestDescription)
    (ctx : TriggerCtx) : RawApiRequestStatus :=
  { requestedAt := ctx.now1,
    payload := some (setField (spec.params.getD []) "requestUlid" ctx.ulid),
    completed := some ctx.signal,
    lastSuccessAt := st.bind (fun r => r.lastSuccessAt) }

/-- The record transition `dispatch` performs: unchanged on a dedup hit,
otherwise replaced by the fresh pending record. -/
def dispatchRecord (st : Option RawApiRequestStatus) (spec : ApiRequestDescription)
    (ctx : TriggerCtx) : Option RawApiRequestStatus :=
  if dedupHit st spec then st else some (newRecord st spec ctx)

/-- The optimistic-mutation invocation, recorded as an event when the
descriptor carries an `optimistic` function. -/
def optimisticEvents (spec : ApiRequestDescription) (ctx : TriggerCtx) : List Event :=
  match spec.optimistic with
  | some _ => [Event.optimisticRun ctx.ulid]
  | none => []

/-- The `onFail` mutation of the caught error: when the handler is present
and returns a truthy replacement body, `err.response` is replaced by the
spread `{...err.response, data: convertedData}` (creating a response with
no status for a transport error). -/
def applyOnFail (err : JsError) (conv : Option (Option ErrData)) : JsError :=
  match conv with
  | some (some d) =>
      { err with response := some { data := d, status := err.response.bind (fun r => r.status) } }
  | _ => err

/-- The synthesized fallback error body `{data: {error: {message}}}` stored
when the caught error carried no response. -/
def synthErrorBody (msg : String) : AxiosResp :=
  { data := { errorMessage := some msg }, status := none }

/-- What the `error` field of the record is set to in the catch block:
`err.response` when present, the synthesized body otherwise. -/
def storedError (err : JsError) : AxiosResp :=
  match err.response with
  | some r => r
  | none => synthErrorBody err.message

/-- Record mutations performed when the call settles: on success set
`lastSuccessAt` and `receivedAt`; on failure set `receivedAt` and store the
(possibly `onFail`-converted) error. -/
def settleRecord (st : Option RawApiRequestStatus) (conv : Option (Option ErrData))
    (now2 : Nat) : CallOutcome → Option RawApiRequestStatus
  | CallOutcome.success _ _ _ =>
      st.map (fun r => { r with lastSuccessAt := some now2, receivedAt := some now2 })
  | CallOutcome.failure err0 =>
      st.map (fun r => { r with receivedAt := some now2,
                                error := some (storedError (applyOnFail err0 conv)) })

/-- Hook invocations after the call settles, in program order: on success,
`onNewChangeSet` when the `force_change_set_id` header is truthy and the
hook exists, then `onSuccess`; on failure, the stored rollback then
`onFail`. -/
def settleEvents (spec : ApiRequestDescription) (hasRollback : Bool) :
    CallOutcome → List Event
  | CallOutcome.success d _ fcs =>
      (match fcs with
       | some v =>
           if v ≠ "" ∧ spec.hasOnNewChangeSet = true then [Event.onNewChangeSetHook v d] else []
       | none => []) ++
      (if spec.hasOnSuccess then [Event.onSuccessHook d] else [])
  | CallOutcome.failure _ =>
      (if hasRollback then [Event.rollback] else []) ++
      (if spec.onFail.isSome then [Event.onFailHook] else [])

/-- The value passed to `completed.resolve`: `{data}` on success, `{error}`
(after `onFail` conversion) on failure. -/
def settleSignal (conv : Option (Option ErrData)) : CallOutcome → SignalValue
  | CallOutcome.success d _ _ => SignalValue.dataV d
  | CallOutcome.failure err0 => SignalValue.errorV (applyOnFail err0 conv)

/-- What `triggerApiRequest` does after resolving the promise: read
`err.response.status` for the span attribute — a `TypeError` crash when a
failure carried no response — and otherwise return the resolved value. -/
def settleOutcome (conv : Option (Option ErrData)) : CallOutcome → TriggerOutcome
  | CallOutcome.success d _ _ => TriggerOutcome.resolvedData d
  | CallOutcome.failure err0 =>
      match (applyOnFail err0 conv).response with
      | some _ => TriggerOutcome.resolvedError (applyOnFail err0 conv)
      | none => TriggerOutcome.typeError

/-- Embeds `ApiRequestDebouncer.triggerApiRequest`, as one atomic run given the
outcome of the call: dedup check, record creation, optimistic mutation, url
resolution (throwing before the call when it fails), the physical call,
and settlement. -/
def triggerApiRequest (st : Option RawApiRequestStatus) (spec : ApiRequestDescription)
    (ctx : TriggerCtx) (outcome : CallOutcome) : TriggerResult :=
  if dedupHit st spec then
    { newState := st, events := [], resolvedWith := none,
      outcome := TriggerOutcome.deduped (st.bind (fun r => r.completed)) }
  else
    match resolveUrl spec.url with
    | Except.error m =>
        { newState := some (newRecord st spec ctx),
          events := optimisticEvents spec ctx,
          resolvedWith := none,
          outcome := TriggerOutcome.threw m }
    | Except.ok (u, _) =>
        { newState := settleRecord (some (newRecord st spec ctx)) spec.onFail ctx.now2 outcome,
          events := optimisticEvents spec ctx ++ [Event.physicalCall spec.method u] ++
            settleEvents spec (decide (spec.optimistic = some true)) outcome,
          resolvedWith := some (settleSignal spec.onFail outcome),
          outcome := settleOutcome spec.onFail outcome }

/-- The result fields of an `ApiRequest` instance. -/
structure ApiRequestState where
  rawSuccess : Option Bool := none
  rawResponseData : Option RespData := none
  rawResponseError : Option JsError := none
deriving DecidableEq, Repr

/-- How `fireActionResult` terminates: the request carries a result, or the
await rethrows across the orchestration boundary. -/
inductive FireResult
  | ok (req : ApiRequestState)
  | exn (msg : String)
deriving DecidableEq, Repr

/-- Embeds `ApiRequestDebouncer.fireActionResult`: await `triggerApiRequest`
(rethrowing anything it threw), throw `No trigger result` on a falsy
result, and otherwise store the discriminated result on the `ApiRequest`.
For a dedup hit the awaited value is the eventual resolution of the first call,
supplied as `dedupValue`. -/
def fireActionResult (tr : TriggerResult) (dedupValue : SignalValue) : FireResult :=
  match tr.outcome with
  | TriggerOutcome.threw m => FireResult.exn m
  | TriggerOutcome.typeError => FireResult.exn "TypeError"
  | TriggerOutcome.resolvedData d =>
      FireResult.ok { rawSuccess := some true, rawResponseData := some d }
  | TriggerOutcome.resolvedError e =>
      FireResult.ok { rawSuccess := some false, rawResponseError := some e }
  | TriggerOutcome.deduped none => FireResult.exn "No trigger result"
  | TriggerOutcome.deduped (some _) =>
      match dedupValue with
      | SignalValue.dataV d =>
          FireResult.ok { rawSuccess := some true, rawResponseData := some d }
      | SignalValue.errorV e =>
          FireResult.ok { rawSuccess := some false, rawResponseError := some e }

/-- The discriminated value of the `ApiRequest.result` getter. On failure
the `errBody` / `statusCode` fields are only spread in for an `AxiosError`
(reading `response?.data` / `response?.status`). -/
inductive ResultVal
  | successR (data : Option RespData)
  | failureR (err : Option JsError) (errBody : Option ErrData) (statusCode : Option Nat)
deriving DecidableEq, Repr

/-- The `ApiRequest.result` getter: throws until a result has been set, then
returns `{success: true, data}` or `{success: false, err, errBody?,
statusCode?}`. -/
def ApiRequestState.result (a : ApiRequestState) : Except String ResultVal :=
  match a.rawSuccess with
  | none => Except.error "You must await the request to access the result"
  | some true => Except.ok (ResultVal.successR a.rawResponseData)
  | some false =>
      match a.rawResponseError with
      | some err =>
          Except.ok (ResultVal.failureR (some err)
            (if err.isAxiosError then err.response.map (fun r => r.data) else none)
            (if err.isAxiosError then err.response.bind (fun r => r.status) else none))
      | none => Except.ok (ResultVal.failureR none none none)

/-- Embeds `getApiStatusRequestErrorMessage`:
`error?.data?.error?.message || error?.data?.message` (the `statusText`
fallback is not modelled since the stored shapes never carry it). -/
def getApiStatusRequestErrorMessage (error : Option AxiosResp) : Option String :=
  match error with
  | none => none
  | some r =>
      match r.data.errorMessage with
      | some m => if m = "" then r.data.dataMessage else some m
      | none => r.data.dataMessage

/-- Getter `isRequested`: a record exists. -/
def isRequestedState (st : Option RawApiRequestStatus) : Bool :=
  st.isSome

/-- Getter `isPending`: a record exists and `receivedAt` is absent. -/
def isPendingState : Option RawApiRequestStatus → Bool
  | some r => r.receivedAt.isNone
  | none => false

/-- Getter `isFirstLoad`: a record exists, `receivedAt` is absent and
`lastSuccessAt` is absent. -/
def isFirstLoadState : Option RawApiRequestStatus → Bool
  | some r => r.receivedAt.isNone && r.lastSuccessAt.isNone
  | none => false

/-- Getter `isError`: the `error` of the record is present. -/
def isErrorState : Option RawApiRequestStatus → Bool
  | some r => r.error.isSome
  | none => false

/-- Getter `isSuccess`: a record exists, `receivedAt` is present and
`error` is absent. -/
def isSuccessState : Option RawApiRequestStatus → Bool
  | some r => r.receivedAt.isSome && r.error.isNone
  | none => false

/-- One observable step in the life of a single tracking key: a dispatch
(the synchronous part of `triggerApiRequest` up to issuing the call) or a
settlement of an in-flight call (`conv` being what `onFail` returned, if
present). -/
inductive HStep
  | hDispatch (spec : ApiRequestDescription) (ctx : TriggerCtx)
  | hSettle (conv : Option (Option ErrData)) (now2 : Nat) (outcome : CallOutcome)
deriving DecidableEq, Repr

/-- Record transition of one step. -/
def stepState (st : Option RawApiRequestStatus) : HStep → Option RawApiRequestStatus
  | HStep.hDispatch spec ctx => dispatchRecord st spec ctx
  | HStep.hSettle conv n o => settleRecord st conv n o

/-- Run a history of steps over the record of one key. -/
def runHistory (st : Option RawApiRequestStatus) : List HStep → Option RawApiRequestStatus
  | [] => st
  | s :: rest => runHistory (stepState st s) rest

/-- Well-formedness of a history: a settlement only happens while a record
exists (in the source, the settling call always finds `this.request` set,
since dispatch wrote it and nothing on the instance ever unsets it). -/
def wfHistory (st : Option RawApiRequestStatus) : List HStep → Bool
  | [] => true
  | HStep.hDispatch spec ctx :: rest => wfHistory (dispatchRecord st spec ctx) rest
  | HStep.hSettle conv n o :: rest => st.isSome && wfHistory (settleRecord st conv n o) rest

/-- Whether the current record has reached `receivedAt`. -/
def receivedNow (st : Option RawApiRequestStatus) : Bool :=
  match st with
  | some r => r.receivedAt.isSome
  | none => false

/-- Whether any record along the history (including the final state) ever
reached `receivedAt`. -/
def everReceivedB (st : Option RawApiRequestStatus) : List HStep → Bool
  | [] => receivedNow st
  | s :: rest => receivedNow st || everReceivedB (stepState st s) rest

/-- Whether a call outcome is a success. -/
def isSuccessOutcome : CallOutcome → Bool
  | CallOutcome.success _ _ _ => true
  | CallOutcome.failure _ => false

/-- Whether any settlement in the history succeeded. -/
def everSucceededB : List HStep → Bool
  | [] => false
  | HStep.hSettle _ _ o :: rest => isSuccessOutcome o || everSucceededB rest
  | HStep.hDispatch _ _ :: rest => everSucceededB rest

/-- The store-level state of the plugin: `apiRequestDebouncers` as a map
from tracking key to debouncer identity, plus, for each debouncer instance, its
`request` field (instances persist even after their map entry is deleted,
because an in-flight call holds a reference). -/
structure StoreState where
  instances : Nat → Option RawApiRequestStatus
  nextId : Nat
  keyMap : List (String × Nat)

/-- Look a tracking key up in `apiRequestDebouncers`. -/
def lookupKey (s : StoreState) (k : String) : Option Nat :=
  (s.keyMap.find? (fun p => p.1 == k)).map (fun p => p.2)

/-- Embeds `store.apiRequestDebouncers[key] ??= new ApiRequestDebouncer(...)`:
reuse the existing instance or allocate a fresh one (with no record). -/
def ensureDebouncer (s : StoreState) (k : String) : StoreState × Nat :=
  match lookupKey s k with
  | some i => (s, i)
  | none =>
      ({ s with nextId := s.nextId + 1, keyMap := s.keyMap ++ [(k, s.nextId)] }, s.nextId)

/-- The dispatch part of a wrapped action at store level: ensure a
debouncer for the key, then apply the dispatch record transition to it,
returning the instance the in-flight call captured. -/
def storeDispatch (s : StoreState) (k : String) (spec : ApiRequestDescription)
    (ctx : TriggerCtx) : StoreState × Nat :=
  let si := ensureDebouncer s k
  ({ si.1 with
      instances := fun j =>
        if j = si.2 then dispatchRecord (si.1.instances si.2) spec ctx
        else si.1.instances j },
   si.2)

/-- The in-flight call settling against the debouncer instance it captured
at dispatch time (the map is not consulted). -/
def storeSettle (s : StoreState) (i : Nat) (conv : Option (Option ErrData)) (now2 : Nat)
    (outcome : CallOutcome) : StoreState :=
  { s with
      instances := fun j =>
        if j = i then settleRecord (s.instances i) conv now2 outcome
        else s.instances j }

/-- Embeds `clearRequestStatus(requestKey, ...keyedByArgs)`:
`delete store.apiRequestDebouncers[getKey(...)]` — the map entry is
removed, instances are untouched. -/
def clearRequestStatus (s : StoreState) (requestKey : String) (keyedByArgs : List KeyArg) :
    StoreState :=
  { s with keyMap := s.keyMap.filter (fun p => p.1 != getKey requestKey keyedByArgs) }

/-- The record `getRequestStatus(requestKey, ...keyedByArgs)` projects: the
record of the mapped instance, or no record when the key is absent (the getter
then allocates a fresh, empty debouncer, which projects the same
all-false status). -/
def getRequestStatus (s : StoreState) (requestKey : String) (keyedByArgs : List KeyArg) :
    Option RawApiRequestStatus :=
  match lookupKey s (getKey requestKey keyedByArgs) with
  | some i => s.instances i
  | none => none

/-- Effects the `apis.ts` axios interceptors perform, beyond passing the
response/error along. -/
inductive ApiEffect
  | toastFiveHundred
  | toastMaintenanceMode
  | toastUnscheduledDowntime
  | trackEventE (name : String)
  | delayedRedirect (path : String)
  | setActiveChangeset (id : String)
deriving DecidableEq, Repr

/-- The slice of an axios fulfilled response the interceptors read. -/
structure HttpResponse where
  status : Nat
  contentType : Option String := none
  forceChangeSetId : Option String := none
deriving DecidableEq, Repr

/-- Embeds `handleProxyTimeouts`: a 404 whose content type is not
`application/json` is tracked as `api_404_timeout` and followed by a
delayed redirect to `/oops`. -/
def handleProxyTimeouts (r : HttpResponse) : List ApiEffect :=
  if r.status = 404 ∧ r.contentType ≠ some "application/json" then
    [ApiEffect.trackEventE "api_404_timeout", ApiEffect.delayedRedirect "/oops"]
  else []

/-- Embeds `handleForcedChangesetRedirection`: a truthy `force_change_set_id`
header switches the active change set. -/
def handleForcedChangesetRedirection (r : HttpResponse) : List ApiEffect :=
  match r.forceChangeSetId with
  | some v => if v ≠ "" then [ApiEffect.setActiveChangeset v] else []
  | none => []

/-- Embeds `handle500`: a 500 error response raises the `FiveHundredError` toast;
the error is re-rejected either way. -/
def handle500 (e : JsError) : List ApiEffect :=
  if e.response.bind (fun r => r.status) = some 500 then [ApiEffect.toastFiveHundred] else []

/-- Embeds `handleOutageModes`: 503 raises the `MaintenanceMode` toast, 502 and 504
raise the `UnscheduledDowntime` toast; the error is re-rejected either
way. -/
def handleOutageModes (e : JsError) : List ApiEffect :=
  if e.response.bind (fun r => r.status) = some 503 then [ApiEffect.toastMaintenanceMode]
  else if e.response.bind (fun r => r.status) = some 502 ∨
      e.response.bind (fun r => r.status) = some 504 then
    [ApiEffect.toastUnscheduledDowntime]
  else []

/-- Effects along the fulfilled interceptor chain of `sdfApiInstance`
(`handleProxyTimeouts` then `handleForcedChangesetRedirection`). -/
def fulfilledInterceptorEffects (r : HttpResponse) : List ApiEffect :=
  handleProxyTimeouts r ++ handleForcedChangesetRedirection r

/-- Effects along the rejected interceptor chain of `sdfApiInstance`
(`handle500` then `handleOutageModes`, each re-rejecting). -/
def rejectedInterceptorEffects (e : JsError) : List ApiEffect :=
  handle500 e ++ handleOutageModes e

/-- Modelled from the spec: which failure statuses count as conflicts — the
HTTP 409 class, or any status the descriptor of the caller marks as
conflict-worthy. The classification code is not part of the source under
review (only the `ConflictsForRetry` type and the `RETRY_CONFLICT`
declaration appear there). -/
structure ConflictPolicy where
  conflictWorthyStatuses : List Nat := []
deriving DecidableEq, Repr

/-- Modelled from the spec: conflict classification predicate. -/
def isConflict (pol : ConflictPolicy) (statusCode : Nat) : Bool :=
  statusCode == 409 || pol.conflictWorthyStatuses.contains statusCode

/-- The `ConflictsForRetry` registry: request ulid mapped to a human label
and the original descriptor (`Record<RequestUlid, [string, ApiRequest]>`). -/
abbrev ConflictsForRetry := List (String × String × ApiRequestDescription)

/-- Modelled from the spec: `record(requestId, label, descriptor)` appends
an entry to the ConflictRegistry. -/
def recordConflict (reg : ConflictsForRetry) (uid label : String)
    (desc : ApiRequestDescription) : ConflictsForRetry :=
  reg ++ [(uid, label, desc)]

/-- Modelled from the spec: on a failed dispatch, record the entry when the
status is classified as a conflict, in addition to the generic failure
handling; otherwise leave the registry alone. -/
def conflictFailureFlow (reg : ConflictsForRetry) (pol : ConflictPolicy) (uid label : String)
    (desc : ApiRequestDescription) (statusCode : Nat) : ConflictsForRetry :=
  if isConflict pol statusCode then recordConflict reg uid label desc else reg

/-- Modelled from the spec: `RETRY_CONFLICT(requestUlid)` looks the entry
up, removes it, and re-dispatches the original descriptor through the
debouncer, returning its outcome. -/
def retryConflict (reg : ConflictsForRetry) (uid : String)
    (st : Option RawApiRequestStatus) (ctx : TriggerCtx) (outcome : CallOutcome) :
    Option (ConflictsForRetry × TriggerResult) :=
  match reg.find? (fun en => en.1 == uid) with
  | none => none
  | some en =>
      some (reg.filter (fun x => x.1 != uid), triggerApiRequest st en.2.2 ctx outcome)

/-- C1: if a record for the key is pending (`receivedAt` absent) and the new
params of the new descriptor are deep-equal to the stored payload, a dispatch issues
no physical call and re-invokes no hooks, leaves the record untouched, and
returns the existing completion signal to the caller, so both callers
observe the same single resolved outcome. -/
theorem c1_dedup_returns_existing_signal (r : RawApiRequestStatus)
    (spec : ApiRequestDescription) (ctx : TriggerCtx) (outcome : CallOutcome)
    (hpend : r.receivedAt = none) (heq : r.payload = spec.params) :
    triggerApiRequest (some r) spec ctx outcome =
      { newState := some r, events := [], resolvedWith := none,
        outcome := TriggerOutcome.deduped r.completed } := by
  have hd : dedupHit (some r) spec = true := by
    simp [dedupHit, hpend, heq]
  simp [triggerApiRequest, hd]

/-- Witness for C1 at a concrete pending record and identical params. -/
theorem c1_dedup_returns_existing_signal_witness :
    triggerApiRequest
        (some { requestedAt := 1, payload := some [("a", "1")], completed := some 5 })
        { url := UrlSpec.strU "/a", params := some [("a", "1")] }
        { now1 := 9, now2 := 9, ulid := "u", signal := 7 }
        (CallOutcome.success "d" 200 none) =
      { newState := some { requestedAt := 1, payload := some [("a", "1")], completed := some 5 },
        events := [], resolvedWith := none,
        outcome := TriggerOutcome.deduped (some 5) } :=
  c1_dedup_returns_existing_signal _ _ _ _ rfl rfl

/-- The rollback count of the settle-phase events: one exactly when a
rollback was captured and the call failed. -/
theorem count_rollback_settleEvents (spec : ApiRequestDescription) (hb : Bool)
    (o : CallOutcome) :
    (settleEvents spec hb o).count Event.rollback =
      match o with
      | CallOutcome.failure _ => if hb then 1 else 0
      | CallOutcome.success _ _ _ => 0 := by
  rcases o with ⟨d, s, fcs⟩ | ⟨e⟩
  · rcases fcs with _ | v <;>
      · simp only [settleEvents, List.count_append]
        split_ifs <;> simp [List.count_cons]
  · simp only [settleEvents, List.count_append]
    split_ifs <;> simp [List.count_cons]

/-- C4: when the `optimistic` mutation of the descriptor returns a rollback
closure and the dispatch actually issues a call (no dedup hit, url
resolves), the rollback is invoked exactly once if the physical call fails
and never if it succeeds. -/
theorem c4_rollback_exactly_once (st : Option RawApiRequestStatus)
    (spec : ApiRequestDescription) (ctx : TriggerCtx) (outcome : CallOutcome)
    (u un : String)
    (hd : dedupHit st spec = false)
    (hu : resolveUrl spec.url = Except.ok (u, un))
    (hopt : spec.optimistic = some true) :
    (triggerApiRequest st spec ctx outcome).events.count Event.rollback =
      match outcome with
      | CallOutcome.failure _ => 1
      | CallOutcome.success _ _ _ => 0 := by
  unfold triggerApiRequest
  rw [hd, hu]
  simp only [Bool.false_eq_true, if_false]
  rcases outcome with ⟨d, s, fcs⟩ | ⟨err⟩ <;>
    simp [List.count_append, count_rollback_settleEvents, optimisticEvents, hopt,
      List.count_cons]

/-- Witness for C4 at a concrete failing dispatch with a rollback. -/
theorem c4_rollback_exactly_once_witness :
    (triggerApiRequest none
        { url := UrlSpec.strU "/x", optimistic := some true }
        { now1 := 1, now2 := 2, ulid := "u", signal := 0 }
        (CallOutcome.failure
          { message := "boom",
            response := some { data := { errorMessage := none }, status := some 500 } })).events.count
      Event.rollback = 1 :=
  c4_rollback_exactly_once _ _ _ _ "/x" "/x" rfl rfl rfl

/-- C3 counterexample: for the action name `A` and the discriminator
sequence `[null, "x"]`, the dispatch-time tracking key is `A%%x` (JS
`Array.join` renders the null discriminator as an empty string) while the
read-side key is `A%x` (`_.compact` drops it), so the two key computations
disagree; the claim that both sides drop absent/empty discriminators is
false of `getTrackingKey`. -/
theorem c3_keys_disagree_on_falsy_discriminator :
    getTrackingKey "A"
        { keyRequestStatusBy := some (Sum.inr [KeyArg.nullA, KeyArg.strA "x"]) } ≠
      getKey "A" [KeyArg.nullA, KeyArg.strA "x"] := by
  decide

/-- C3 amended: the dispatch-time key and the read-side key agree whenever
every discriminator is truthy (a nonempty string or a nonzero number) —
both then stringify and `%`-join in order — and they also agree for a
single scalar discriminator or no discriminators at all; they only diverge
on an array containing a falsy discriminator, which `getTrackingKey` joins
as an empty string while `getKey` drops it. -/
theorem c3_keys_agree_on_truthy_discriminators (action : String) (args : List KeyArg)
    (a : KeyArg) (sArr sOne sNone : ApiRequestDescription)
    (hArr : sArr.keyRequestStatusBy = some (Sum.inr args))
    (hOne : sOne.keyRequestStatusBy = some (Sum.inl a))
    (hNone : sNone.keyRequestStatusBy = none)
    (htruthy : ∀ x ∈ args, jsTruthyArg x = true) :
    getTrackingKey action sArr = getKey action args ∧
    getTrackingKey action sOne = getKey action [a] ∧
    getTrackingKey action sNone = getKey action [] := by
  refine ⟨?_, ?_, ?_⟩
  · rw [getTrackingKey, getKey, hArr]
    have : args.filter jsTruthyArg = args := List.filter_eq_self.mpr htruthy
    rw [this]
    simp [joinToString]
  · rw [getTrackingKey, getKey, hOne]
    by_cases ha : jsTruthyArg a = true
    · simp [ha, joinToString, List.filter]
    · simp [Bool.not_eq_true] at ha
      simp [ha, joinToString, List.filter]
  · rw [getTrackingKey, getKey, hNone]
    simp [joinToString]

/-- Witness for C3 (amended) at concrete truthy discriminators. -/
theorem c3_keys_agree_on_truthy_discriminators_witness :
    getTrackingKey "A"
        { keyRequestStatusBy := some (Sum.inr [KeyArg.strA "g", KeyArg.numA 2]) } =
      getKey "A" [KeyArg.strA "g", KeyArg.numA 2] ∧
    getTrackingKey "A" { keyRequestStatusBy := some (Sum.inl (KeyArg.numA 0)) } =
      getKey "A" [KeyArg.numA 0] ∧
    getTrackingKey "A" ({} : ApiRequestDescription) = getKey "A" [] :=
  c3_keys_agree_on_truthy_discriminators "A" [KeyArg.strA "g", KeyArg.numA 2]
    (KeyArg.numA 0) _ _ _ rfl rfl rfl (by decide)

/-- The transport error used to exercise C2: an axios network error that
carries no HTTP response. -/
def c2Err : JsError :=
  { message := "Network Error", response := none, isAxiosError := true }

/-- The descriptor used to exercise C2: a plain GET with no `onFail`
handler. -/
def c2Spec : ApiRequestDescription :=
  { url := UrlSpec.strU "/api/x", method := some Method.get }

/-- C2: on a physical call failing with no HTTP response, the code does
store the synthesized `{error: {message}}` body on the record and does
resolve the completion signal with the failure — but it then reads
`err.response.status` for the span attribute, a `TypeError` on the absent
response, so `triggerApiRequest` rejects and `fireActionResult` throws
across the orchestration boundary instead of returning a discriminated
failure. -/
theorem c2_transport_error_throws_across_boundary :
    ((triggerApiRequest none c2Spec { now1 := 1, now2 := 2, ulid := "u1", signal := 0 }
        (CallOutcome.failure c2Err)).newState.bind (fun r => r.error)) =
      some (synthErrorBody "Network Error") ∧
    (triggerApiRequest none c2Spec { now1 := 1, now2 := 2, ulid := "u1", signal := 0 }
        (CallOutcome.failure c2Err)).resolvedWith =
      some (SignalValue.errorV c2Err) ∧
    (triggerApiRequest none c2Spec { now1 := 1, now2 := 2, ulid := "u1", signal := 0 }
        (CallOutcome.failure c2Err)).outcome = TriggerOutcome.typeError ∧
    fireActionResult
        (triggerApiRequest none c2Spec { now1 := 1, now2 := 2, ulid := "u1", signal := 0 }
          (CallOutcome.failure c2Err))
        (SignalValue.dataV "unused") = FireResult.exn "TypeError" := by
  refine ⟨rfl, rfl, rfl, rfl⟩

/-- C6: when the response carries a truthy `force_change_set_id` header and
the descriptor defines both hooks, the events of the dispatch are exactly
the optimistic mutation (if any), the physical call, the awaited
`onNewChangeSet` hook invoked with the header value and the response body,
and only then the `onSuccess` hook. -/
theorem c6_context_switch_hook_before_success (st : Option RawApiRequestStatus)
    (spec : ApiRequestDescription) (ctx : TriggerCtx) (d : RespData) (s : Nat)
    (v u un : String)
    (hd : dedupHit st spec = false)
    (hu : resolveUrl spec.url = Except.ok (u, un))
    (hv : v ≠ "")
    (hn : spec.hasOnNewChangeSet = true)
    (hs : spec.hasOnSuccess = true) :
    (triggerApiRequest st spec ctx (CallOutcome.success d s (some v))).events =
      optimisticEvents spec ctx ++
        [Event.physicalCall spec.method u, Event.onNewChangeSetHook v d,
         Event.onSuccessHook d] := by
  unfold triggerApiRequest
  rw [hd, hu]
  simp [settleEvents, hv, hn, hs]

/-- Witness for C6 at a concrete dispatch carrying the header value
`cs-123`. -/
theorem c6_context_switch_hook_before_success_witness :
    (triggerApiRequest none
        { url := UrlSpec.strU "/w", hasOnSuccess := true, hasOnNewChangeSet := true }
        { now1 := 1, now2 := 2, ulid := "u", signal := 0 }
        (CallOutcome.success "body" 200 (some "cs-123"))).events =
      optimisticEvents
          { url := UrlSpec.strU "/w", hasOnSuccess := true, hasOnNewChangeSet := true }
          { now1 := 1, now2 := 2, ulid := "u", signal := 0 } ++
        [Event.physicalCall none "/w", Event.onNewChangeSetHook "cs-123" "body",
         Event.onSuccessHook "body"] :=
  c6_context_switch_hook_before_success _ _ _ _ _ _ _ _ rfl rfl (by decide) rfl rfl

/-- C10: reading `result` before a result has been set throws; after
`fireActionResult` returns normally, `result` is `{success: true, data}`
when the trigger resolved with data, and `{success: false, err}` when it
resolved with an error — with `errBody`/`statusCode` drawn from the
response attached to the error exactly when the error is an `AxiosError`
carrying one. -/
theorem c10_result_discriminated (dat : Option RespData) (er : Option JsError)
    (tr : TriggerResult) (dv : SignalValue) (d : RespData) (e : JsError) :
    ApiRequestState.result
        { rawSuccess := none, rawResponseData := dat, rawResponseError := er } =
      Except.error "You must await the request to access the result" ∧
    (tr.outcome = TriggerOutcome.resolvedData d →
      fireActionResult tr dv = FireResult.ok { rawSuccess := some true, rawResponseData := some d } ∧
      ApiRequestState.result { rawSuccess := some true, rawResponseData := some d } =
        Except.ok (ResultVal.successR (some d))) ∧
    (tr.outcome = TriggerOutcome.resolvedError e →
      fireActionResult tr dv =
        FireResult.ok { rawSuccess := some false, rawResponseError := some e } ∧
      ApiRequestState.result { rawSuccess := some false, rawResponseError := some e } =
        Except.ok (ResultVal.failureR (some e)
          (if e.isAxiosError then e.response.map (fun r => r.data) else none)
          (if e.isAxiosError then e.response.bind (fun r => r.status) else none)) ∧
      (if e.isAxiosError then e.response.map (fun r => r.data) else none).isSome =
        (e.isAxiosError && e.response.isSome)) := by
  refine ⟨rfl, ?_, ?_⟩
  · intro h
    exact ⟨by simp [fireActionResult, h], rfl⟩
  · intro h
    refine ⟨by simp [fireActionResult, h], rfl, ?_⟩
    by_cases hax : e.isAxiosError = true
    · rcases hresp : e.response with _ | r <;> simp [hax, hresp]
    · simp [Bool.not_eq_true] at hax
      simp [hax]

/-- The no-response axios error used in the C10 witness. -/
def c10Err : JsError := { message := "m", response := none, isAxiosError := true }

/-- Witness for C10: a trigger result resolved with data, and one resolved
with an error, run through `fireActionResult` and `result`. -/
theorem c10_result_discriminated_witness :
    (fireActionResult
        { newState := none, events := [], resolvedWith := some (SignalValue.dataV "ok"),
          outcome := TriggerOutcome.resolvedData "ok" }
        (SignalValue.dataV "x") =
      FireResult.ok { rawSuccess := some true, rawResponseData := some "ok" } ∧
      ApiRequestState.result { rawSuccess := some true, rawResponseData := some "ok" } =
        Except.ok (ResultVal.successR (some "ok"))) ∧
    (fireActionResult
        { newState := none, events := [], resolvedWith := some (SignalValue.errorV c10Err),
          outcome := TriggerOutcome.resolvedError c10Err }
        (SignalValue.dataV "x") =
      FireResult.ok { rawSuccess := some false, rawResponseError := some c10Err } ∧
      ApiRequestState.result { rawSuccess := some false, rawResponseError := some c10Err } =
        Except.ok (ResultVal.failureR (some c10Err)
          (if c10Err.isAxiosError then c10Err.response.map (fun r => r.data) else none)
          (if c10Err.isAxiosError then c10Err.response.bind (fun r => r.status) else none)) ∧
      (if c10Err.isAxiosError then c10Err.response.map (fun r => r.data) else none).isSome =
        (c10Err.isAxiosError && c10Err.response.isSome)) :=
  ⟨(c10_result_discriminated none none
      { newState := none, events := [], resolvedWith := some (SignalValue.dataV "ok"),
        outcome := TriggerOutcome.resolvedData "ok" }
      (SignalValue.dataV "x") "ok" c10Err).2.1 rfl,
   (c10_result_discriminated none none
      { newState := none, events := [], resolvedWith := some (SignalValue.errorV c10Err),
        outcome := TriggerOutcome.resolvedError c10Err }
      (SignalValue.dataV "x") "ok" c10Err).2.2 rfl⟩

/-- A dispatch never changes the carried `lastSuccessAt`: a dedup hit keeps
the record, a fresh record copies it forward. -/
theorem dispatchRecord_lastSuccess (st : Option RawApiRequestStatus)
    (spec : ApiRequestDescription) (ctx : TriggerCtx) :
    (dispatchRecord st spec ctx).bind (fun r => r.lastSuccessAt) =
      st.bind (fun r => r.lastSuccessAt) := by
  unfold dispatchRecord
  split
  · rfl
  · simp [newRecord]

/-- Along any well-formed history, the `lastSuccessAt` of the final record is
present exactly when it was already present at the start or some
settlement in the history succeeded. -/
theorem lastSuccess_runHistory (h : List HStep) : ∀ st : Option RawApiRequestStatus,
    wfHistory st h = true →
    ((runHistory st h).bind (fun r => r.lastSuccessAt)).isSome =
      ((st.bind (fun r => r.lastSuccessAt)).isSome || everSucceededB h) := by
  induction h with
  | nil => intro st _; simp [runHistory, everSucceededB]
  | cons s rest ih =>
    intro st hwf
    cases s with
    | hDispatch spec ctx =>
        simp only [wfHistory] at hwf
        have hrec := ih (dispatchRecord st spec ctx) hwf
        simp only [runHistory, stepState, everSucceededB]
        rw [hrec, dispatchRecord_lastSuccess]
    | hSettle conv n o =>
        simp only [wfHistory, Bool.and_eq_true] at hwf
        obtain ⟨hsome, hwf'⟩ := hwf
        obtain ⟨r, rfl⟩ := Option.isSome_iff_exists.mp hsome
        have hrec := ih (settleRecord (some r) conv n o) hwf'
        cases o with
        | success d sc fcs =>
            simp only [runHistory, stepState, everSucceededB, isSuccessOutcome]
            rw [hrec]
            simp [settleRecord]
        | failure e =>
            simp only [runHistory, stepState, everSucceededB, isSuccessOutcome]
            rw [hrec]
            simp [settleRecord]

/-- The failing dispatch settlement used in the C5 counterexample. -/
def c5Err : JsError :=
  { message := "boom",
    response := some { data := { errorMessage := some "boom" }, status := some 500 },
    isAxiosError := true }

/-- The descriptor used in the C5 counterexample. -/
def c5Spec : ApiRequestDescription := { url := UrlSpec.strU "/a" }

/-- The C5 counterexample history: dispatch, fail, dispatch again (the retry
still in flight). -/
def c5Hist : List HStep :=
  [HStep.hDispatch c5Spec { now1 := 1, now2 := 0, ulid := "u1", signal := 0 },
   HStep.hSettle none 2 (CallOutcome.failure c5Err),
   HStep.hDispatch c5Spec { now1 := 3, now2 := 0, ulid := "u2", signal := 1 }]

/-- C5 counterexample: after a failed first attempt and a pending retry,
`isFirstLoad` is `true` even though a prior record for the key did reach
`receivedAt` — refuting the reading of the claim that takes `isFirstLoad` as "no prior
record ever reached receivedAt"; `isFirstLoad` tracks only
never-having-succeeded. -/
theorem c5_firstLoad_despite_prior_receipt :
    wfHistory none c5Hist = true ∧
    everReceivedB none c5Hist = true ∧
    isFirstLoadState (runHistory none c5Hist) = true := by
  decide

/-- C5 amended: along any well-formed history of a key starting from no
record, `isFirstLoad` is `true` exactly when the current record is pending
(`receivedAt` absent) and no dispatch for the key has ever succeeded —
`lastSuccessAt` being carried forward on each new dispatch and set only on
success; a prior received failure does not end first-load. -/
theorem c5_isFirstLoad_iff_pending_and_never_succeeded (h : List HStep)
    (hwf : wfHistory none h = true) :
    isFirstLoadState (runHistory none h) = true ↔
      (isPendingState (runHistory none h) = true ∧ everSucceededB h = false) := by
  have hinv := lastSuccess_runHistory h none hwf
  rcases hrun : runHistory none h with _ | r
  · rw [hrun] at hinv
    simp [isFirstLoadState, isPendingState]
  · rw [hrun] at hinv
    simp only [Option.some_bind, Option.none_bind, Option.isSome_none,
      Bool.false_or] at hinv
    rcases hrc : r.receivedAt with _ | t1 <;> rcases hls : r.lastSuccessAt with _ | t2 <;>
      rw [hls] at hinv <;>
      simp_all [isFirstLoadState, isPendingState]

/-- Witness for C5 (amended) at the concrete failed-then-retried history. -/
theorem c5_isFirstLoad_iff_pending_and_never_succeeded_witness :
    isFirstLoadState (runHistory none c5Hist) = true ↔
      (isPendingState (runHistory none c5Hist) = true ∧ everSucceededB c5Hist = false) :=
  c5_isFirstLoad_iff_pending_and_never_succeeded c5Hist (by decide)

/-- After `clearRequestStatus` the cleared key is no longer in the
debouncer map. -/
theorem lookupKey_clear (s : StoreState) (rk : String) (args : List KeyArg) :
    lookupKey (clearRequestStatus s rk args) (getKey rk args) = none := by
  have hfind : ((s.keyMap.filter (fun p => p.1 != getKey rk args)).find?
      (fun p => p.1 == getKey rk args)) = none := by
    rw [List.find?_eq_none]
    intro x hx
    have hxk := (List.mem_filter.mp hx).2
    simp only [bne_iff_ne, ne_eq] at hxk
    simp [hxk]
  simp [lookupKey, clearRequestStatus, hfind]

/-- C8 amended: `clearRequestStatus` removes the debouncer of the key from the
map, so the key projects Idle (`isRequested` false); it does not cancel an
in-flight physical call — the call still settles normally against the
debouncer instance it captured, marking that detached record received —
but no record reappears under the key: it stays Idle until a new
dispatch. -/
theorem c8_clear_idles_key_without_cancelling (s : StoreState) (rk : String)
    (args : List KeyArg) (i : Nat) (r : RawApiRequestStatus)
    (conv : Option (Option ErrData)) (n2 : Nat) (o : CallOutcome)
    (hr : (clearRequestStatus s rk args).instances i = some r) :
    getRequestStatus (clearRequestStatus s rk args) rk args = none ∧
    isRequestedState (getRequestStatus (clearRequestStatus s rk args) rk args) = false ∧
    (storeSettle (clearRequestStatus s rk args) i conv n2 o).instances i =
      settleRecord (some r) conv n2 o ∧
    (∃ r2, settleRecord (some r) conv n2 o = some r2 ∧ r2.receivedAt = some n2) ∧
    getRequestStatus (storeSettle (clearRequestStatus s rk args) i conv n2 o) rk args =
      none := by
  have hlk : lookupKey (clearRequestStatus s rk args) (getKey rk args) = none :=
    lookupKey_clear s rk args
  refine ⟨?_, ?_, ?_, ?_, ?_⟩
  · simp [getRequestStatus, hlk]
  · simp [getRequestStatus, hlk, isRequestedState]
  · simp [storeSettle, hr]
  · cases o with
    | success d sc fcs => exact ⟨_, rfl, rfl⟩
    | failure e => exact ⟨_, rfl, rfl⟩
  · have hlk2 : lookupKey (storeSettle (clearRequestStatus s rk args) i conv n2 o)
        (getKey rk args) = none := hlk
    simp [getRequestStatus, hlk2]

/-- The descriptor used in the C8 scenario. -/
def c8Spec : ApiRequestDescription := { url := UrlSpec.strU "/load" }

/-- Empty store. -/
def c8Store0 : StoreState := { instances := fun _ => none, nextId := 0, keyMap := [] }

/-- Store after dispatching key `LOAD` (instance 0 now pending). -/
def c8Store1 : StoreState :=
  (storeDispatch c8Store0 "LOAD" c8Spec { now1 := 1, now2 := 0, ulid := "u1", signal := 0 }).1

/-- Store after `clearRequestStatus` dropped key `LOAD` while instance 0 is
still in flight. -/
def c8Store2 : StoreState := clearRequestStatus c8Store1 "LOAD" []

/-- Store after the in-flight call settled successfully against its
captured (now detached) instance 0. -/
def c8Store3 : StoreState := storeSettle c8Store2 0 none 7 (CallOutcome.success "ok" 200 none)

/-- The record instance 0 holds right after the clear. -/
def c8Rec : RawApiRequestStatus :=
  { requestedAt := 1, payload := some [("requestUlid", "u1")], completed := some 0 }

/-- C8 counterexample: after clearing the key while a call was in flight,
the call still resolves (its detached record reaches `receivedAt`), but
seeing no record it does NOT re-create one — the key still projects
`isRequested = false`, refuting the final clause of the claim. -/
theorem c8_no_record_recreated_after_clear :
    isRequestedState (getRequestStatus c8Store2 "LOAD" []) = false ∧
    (c8Store3.instances 0).isSome = true ∧
    receivedNow (c8Store3.instances 0) = true ∧
    isRequestedState (getRequestStatus c8Store3 "LOAD" []) = false := by
  decide

/-- Witness for C8 (amended) at the concrete cleared-while-pending store. -/
theorem c8_clear_idles_key_without_cancelling_witness :
    getRequestStatus (clearRequestStatus c8Store1 "LOAD" []) "LOAD" [] = none ∧
    isRequestedState (getRequestStatus (clearRequestStatus c8Store1 "LOAD" []) "LOAD" []) =
      false ∧
    (storeSettle (clearRequestStatus c8Store1 "LOAD" []) 0 none 7
        (CallOutcome.success "ok" 200 none)).instances 0 =
      settleRecord (some c8Rec) none 7 (CallOutcome.success "ok" 200 none) ∧
    (∃ r2, settleRecord (some c8Rec) none 7 (CallOutcome.success "ok" 200 none) = some r2 ∧
      r2.receivedAt = some 7) ∧
    getRequestStatus
        (storeSettle (clearRequestStatus c8Store1 "LOAD" []) 0 none 7
          (CallOutcome.success "ok" 200 none)) "LOAD" [] = none :=
  c8_clear_idles_key_without_cancelling c8Store1 "LOAD" [] 0 c8Rec none 7
    (CallOutcome.success "ok" 200 none) (by decide)

/-- C9: along the `sdfApiInstance` interceptor chains, a 500 error raises
the generic-failure toast, 502/504 raise the unscheduled-downtime toast,
503 raises the maintenance-mode toast, and a fulfilled 404 whose content
type is not JSON is tracked as the `api_404_timeout` telemetry event
followed by the delayed `/oops` redirect. -/
theorem c9_response_status_classification (e : JsError) (s : Nat) (r : HttpResponse)
    (hs : e.response.bind (fun x => x.status) = some s) :
    (ApiEffect.toastFiveHundred ∈ rejectedInterceptorEffects e ↔ s = 500) ∧
    (ApiEffect.toastUnscheduledDowntime ∈ rejectedInterceptorEffects e ↔
      (s = 502 ∨ s = 504)) ∧
    (ApiEffect.toastMaintenanceMode ∈ rejectedInterceptorEffects e ↔ s = 503) ∧
    (handleProxyTimeouts r =
        [ApiEffect.trackEventE "api_404_timeout", ApiEffect.delayedRedirect "/oops"] ↔
      (r.status = 404 ∧ r.contentType ≠ some "application/json")) := by
  refine ⟨?_, ?_, ?_, ?_⟩
  · simp only [rejectedInterceptorEffects, handle500, handleOutageModes, hs,
      Option.some.injEq, List.mem_append]
    split_ifs <;> simp_all
  · simp only [rejectedInterceptorEffects, handle500, handleOutageModes, hs,
      Option.some.injEq, List.mem_append]
    split_ifs <;> simp_all
  · simp only [rejectedInterceptorEffects, handle500, handleOutageModes, hs,
      Option.some.injEq, List.mem_append]
    split_ifs <;> simp_all
  · simp only [handleProxyTimeouts]
    split_ifs with hc <;> simp [hc]

/-- The 503 error used in the C9 witness. -/
def c9Err503 : JsError :=
  { message := "unavailable",
    response := some { data := { errorMessage := none }, status := some 503 } }

/-- The non-JSON 404 response used in the C9 witness. -/
def c9Resp404 : HttpResponse := { status := 404, contentType := some "text/html" }

/-- Witness for C9 at a concrete 503 error and non-JSON 404 response. -/
theorem c9_response_status_classification_witness :
    (ApiEffect.toastFiveHundred ∈ rejectedInterceptorEffects c9Err503 ↔ 503 = 500) ∧
    (ApiEffect.toastUnscheduledDowntime ∈ rejectedInterceptorEffects c9Err503 ↔
      (503 = 502 ∨ 503 = 504)) ∧
    (ApiEffect.toastMaintenanceMode ∈ rejectedInterceptorEffects c9Err503 ↔ 503 = 503) ∧
    (handleProxyTimeouts c9Resp404 =
        [ApiEffect.trackEventE "api_404_timeout", ApiEffect.delayedRedirect "/oops"] ↔
      (c9Resp404.status = 404 ∧ c9Resp404.contentType ≠ some "application/json")) :=
  c9_response_status_classification c9Err503 503 c9Resp404 rfl

/-- A fresh-ulid registry append is found by its ulid. -/
theorem find?_fresh_append (reg : ConflictsForRetry) (uid : String)
    (en : String × String × ApiRequestDescription)
    (hfresh : ∀ x ∈ reg, x.1 ≠ uid) (hen : en.1 = uid) :
    (reg ++ [en]).find? (fun x => x.1 == uid) = some en := by
  induction reg with
  | nil => simp [List.find?, hen]
  | cons a t ih =>
      have ha : (a.1 == uid) = false := by
        simpa using hfresh a (List.mem_cons_self a t)
      have ht : ∀ x ∈ t, x.1 ≠ uid := fun x hx => hfresh x (List.mem_cons_of_mem a hx)
      simp [List.find?, ha, ih ht]

/-- Removing a fresh-ulid appended entry restores the registry. -/
theorem filter_fresh_append (reg : ConflictsForRetry) (uid : String)
    (en : String × String × ApiRequestDescription)
    (hfresh : ∀ x ∈ reg, x.1 ≠ uid) (hen : en.1 = uid) :
    (reg ++ [en]).filter (fun x => x.1 != uid) = reg := by
  induction reg with
  | nil => simp [List.filter, hen]
  | cons a t ih =>
      have ha : (a.1 != uid) = true := by
        simpa using hfresh a (List.mem_cons_self a t)
      have ht : ∀ x ∈ t, x.1 ≠ uid := fun x hx => hfresh x (List.mem_cons_of_mem a hx)
      simp [List.filter, ha, ih ht]

/-- C7: a dispatch failing with a conflict status (409, or one the
descriptor marks conflict-worthy) records the (ulid, label, descriptor)
entry in the ConflictRegistry on top of the generic failure handling, and
`RETRY_CONFLICT` on that ulid removes exactly that entry and re-dispatches
the original descriptor through the debouncer, returning its outcome. -/
theorem c7_conflict_recorded_then_retry_redispatches (reg : ConflictsForRetry)
    (pol : ConflictPolicy) (uid label : String) (desc : ApiRequestDescription)
    (statusCode : Nat) (st : Option RawApiRequestStatus) (ctx : TriggerCtx)
    (outcome : CallOutcome)
    (hconf : isConflict pol statusCode = true)
    (hfresh : ∀ en ∈ reg, en.1 ≠ uid) :
    (uid, label, desc) ∈ conflictFailureFlow reg pol uid label desc statusCode ∧
    retryConflict (conflictFailureFlow reg pol uid label desc statusCode) uid st ctx
        outcome =
      some (reg, triggerApiRequest st desc ctx outcome) ∧
    ∀ x ∈ reg, x ∈ conflictFailureFlow reg pol uid label desc statusCode := by
  have hflow : conflictFailureFlow reg pol uid label desc statusCode =
      reg ++ [(uid, label, desc)] := by
    simp [conflictFailureFlow, hconf, recordConflict]
  refine ⟨?_, ?_, ?_⟩
  · rw [hflow]; simp
  · rw [hflow]
    unfold retryConflict
    rw [find?_fresh_append reg uid (uid, label, desc) hfresh rfl]
    simp [filter_fresh_append reg uid (uid, label, desc) hfresh rfl]
  · intro x hx
    rw [hflow]
    exact List.mem_append_left _ hx

/-- The original descriptor retried in the C7 witness. -/
def c7Desc : ApiRequestDescription :=
  { url := UrlSpec.strU "/merge", method := some Method.post }

/-- An empty conflict policy (only the 409 class is conflict-worthy). -/
def c7Pol : ConflictPolicy := { conflictWorthyStatuses := [] }

/-- Witness for C7 at a concrete 409 failure recorded into an empty
registry and then retried. -/
theorem c7_conflict_recorded_then_retry_redispatches_witness :
    ("u1", "merge", c7Desc) ∈ conflictFailureFlow [] c7Pol "u1" "merge" c7Desc 409 ∧
    retryConflict (conflictFailureFlow [] c7Pol "u1" "merge" c7Desc 409) "u1" none
        { now1 := 1, now2 := 2, ulid := "u2", signal := 3 }
        (CallOutcome.success "merged" 200 none) =
      some ([], triggerApiRequest none c7Desc
        { now1 := 1, now2 := 2, ulid := "u2", signal := 3 }
        (CallOutcome.success "merged" 200 none)) ∧
    ∀ x ∈ ([] : ConflictsForRetry),
      x ∈ conflictFailureFlow [] c7Pol "u1" "merge" c7Desc 409 :=
  c7_conflict_recorded_then_retry_redispatches [] c7Pol "u1" "merge" c7Desc 409 none
    { now1 := 1, now2 := 2, ulid := "u2", signal := 3 }
    (CallOutcome.success "merged" 200 none) rfl (by simp)

end Si
